import Mathlib

/-!
# Poke Blocker (TeamSpeak 3 client plugin): embedding of `plugin.cpp`

A shallow embedding of the parts of `src/PokeBlocker/plugin.cpp` that carry
behaviour: `url_encode`, `tostring`, the poke handler
`ts3plugin_onClientPokeEvent`, the menu table of `ts3plugin_initMenus` and the
menu handler `ts3plugin_onMenuItemEvent`.

Conventions.
* A `std::string` and the text behind a `const char*` are lists of bytes; a
  byte is a natural number, the value of the `char` read as `unsigned char`.
  The list behind a `const char*` is the text before its terminator.
* `std::ostringstream` is a record of the characters written so far and of the
  formatting state the source touches (fill character, number base, width).
* The host function table `ts3Functions` and the C library clock are a record
  of functions; calls to the two output functions of the host are collected in
  a trace, in program order. The `printf` diagnostics on standard output are
  left out.
* A local that is declared without an initialiser is indeterminate until it is
  written. An indeterminate integer is some number, an input of the model. An
  indeterminate pointer points to no text: reading through it is undefined
  behaviour, in practice a fault, and a run that does so has no return value.
-/

set_option autoImplicit false

namespace PokeBlocker

/-! ## Bytes and text -/

/-- One `char` of a `std::string`, by its value as `unsigned char`. -/
abbrev Byte := Nat

/-- The bytes of an ASCII string literal of the source. -/
def lit (s : String) : List Byte := s.toList.map Char.toNat

/-! ## `std::ostringstream`, as far as the source uses it -/

/-- The state of a `std::ostringstream`: the text written so far, the fill
character (`fill`), whether the base is hexadecimal (`hex`) and the field
width for the next formatted output (`setw`). -/
structure OStringStream where
  buf : List Byte
  fillCh : Byte
  hexBase : Bool
  width : Nat
deriving DecidableEq, Repr

namespace OStringStream

/-- A freshly constructed stream: empty, filled with blanks, decimal, width 0. -/
def init : OStringStream := ⟨[], 32, false, 0⟩

/-- The call `os.fill(c)`. -/
def fill (os : OStringStream) (c : Byte) : OStringStream := { os with fillCh := c }

/-- The manipulator `os << hex`. -/
def hex (os : OStringStream) : OStringStream := { os with hexBase := true }

/-- The manipulator `os << setw(n)`. -/
def setw (os : OStringStream) (n : Nat) : OStringStream := { os with width := n }

/-- A formatted field: the text, preceded by fill characters up to the width
(the default adjustment is to the right). -/
def field (os : OStringStream) (text : List Byte) : List Byte :=
  List.replicate (os.width - text.length) os.fillCh ++ text

/-- The digits of a non-negative integer in the stream's base; hexadecimal
digits are lower-case, no `uppercase` flag being set in the source. -/
def digits (os : OStringStream) (n : Nat) : List Byte :=
  (Nat.toDigits (if os.hexBase then 16 else 10) n).map Char.toNat

/-- Formatted output of one character, `os << c`; the width is reset. -/
def putChar (os : OStringStream) (c : Byte) : OStringStream :=
  { os with buf := os.buf ++ os.field [c], width := 0 }

/-- Formatted output of a non-negative integer, `os << n`; the width is reset. -/
def putInt (os : OStringStream) (n : Nat) : OStringStream :=
  { os with buf := os.buf ++ os.field (os.digits n), width := 0 }

/-- The call `os.str()`. -/
def str (os : OStringStream) : List Byte := os.buf

end OStringStream

/-! ## `url_encode` -/

/-- The C library `isalnum` in the "C" locale: the ASCII digits and letters. -/
def isalnum (c : Byte) : Bool :=
  (48 ≤ c && c ≤ 57) || (65 ≤ c && c ≤ 90) || (97 ≤ c && c ≤ 122)

/-- The test of `url_encode` for a character that is kept:
`isalnum(c) || c == '-' || c == '_' || c == '.' || c == '~'`. -/
def keepIntact (c : Byte) : Bool :=
  isalnum c || c == 45 || c == 95 || c == 46 || c == 126

/-- The body of the loop of `url_encode` for one character `c`. -/
def url_encode_step (escaped : OStringStream) (c : Byte) : OStringStream :=
  if keepIntact c then
    escaped.putChar c
  else
    ((escaped.putChar 37).setw 2).putInt (c % 256)

/-- The function `url_encode` of the source: a stream with fill `'0'` and base
`hex`, one loop step per character of `value` in order, then `str()`. -/
def url_encode (value : List Byte) : List Byte :=
  (value.foldl url_encode_step ((OStringStream.init.fill 48).hex)).str

/-- The function template `tostring`, at an unsigned integer. -/
def tostring (t : Nat) : List Byte := (OStringStream.init.putInt t).str


/-! ## The percent-encoding as the specification words it -/

/-- An unreserved character: an ASCII letter, an ASCII digit, `-`, `_`, `.`
or `~`. -/
def isUnreserved (c : Byte) : Prop :=
  (65 ≤ c ∧ c ≤ 90) ∨ (97 ≤ c ∧ c ≤ 122) ∨ (48 ≤ c ∧ c ≤ 57) ∨
    c = 45 ∨ c = 95 ∨ c = 46 ∨ c = 126

instance decidableIsUnreserved (c : Byte) : Decidable (isUnreserved c) := by
  unfold isUnreserved; infer_instance

/-- A hexadecimal digit of either case: `0`-`9`, `A`-`F`, `a`-`f`. -/
def isHexDigit (c : Byte) : Bool :=
  (48 ≤ c && c ≤ 57) || (65 ≤ c && c ≤ 70) || (97 ≤ c && c ≤ 102)

/-- The value of a hexadecimal digit of either case (0 for any other byte). -/
def hexVal (c : Byte) : Nat :=
  if 48 ≤ c ∧ c ≤ 57 then c - 48
  else if 65 ≤ c ∧ c ≤ 70 then c - 55
  else if 97 ≤ c ∧ c ≤ 102 then c - 87
  else 0

/-- The lower-case hexadecimal digit of a value below 16. -/
def hexDigit (d : Nat) : Byte := if d < 10 then 48 + d else 87 + d

/-- The piece of output for one input byte: the byte itself when it is
unreserved, otherwise `%` and the two hexadecimal digits of the byte taken as
an unsigned 8-bit number. -/
def encodedPiece (c : Byte) : List Byte :=
  if isUnreserved c then [c]
  else [37, hexDigit (c % 256 / 16), hexDigit (c % 256 % 16)]

/-- The loop of the standard percent-decoder, reading one byte at a time:
`skip` counts the hexadecimal digits of the escape just decoded that are still
to be passed over. -/
def percentDecodeFrom : Nat → List Byte → List Byte
  | _, [] => []
  | skip + 1, _ :: rest => percentDecodeFrom skip rest
  | 0, c :: rest =>
    match rest with
    | h :: l :: _ =>
      if c = 37 ∧ isHexDigit h = true ∧ isHexDigit l = true then
        (hexVal h * 16 + hexVal l) :: percentDecodeFrom 2 rest
      else c :: percentDecodeFrom 0 rest
    | _ => c :: percentDecodeFrom 0 rest

/-- The standard percent-decoder: a `%` followed by two hexadecimal digits, of
either case, becomes the byte with that value; every other byte is kept. -/
def percentDecode (s : List Byte) : List Byte := percentDecodeFrom 0 s

/-- Printable ASCII: the bytes `0x20` to `0x7E`. -/
def isPrintableAscii (c : Byte) : Prop := 32 ≤ c ∧ c ≤ 126

instance decidableIsPrintableAscii (c : Byte) : Decidable (isPrintableAscii c) := by
  unfold isPrintableAscii; infer_instance

/-! ## The host and the plugin state -/

/-- Modelled from the spec: `enum ChannelProperties` is declared in
`public_definitions.h`, which is not among the sources. The plugin asks for one
channel property, the channel's display name, with the constant
`CHANNEL_NAME`. -/
inductive ChannelProperties where
  | CHANNEL_NAME
deriving DecidableEq, Repr

/-- Modelled from the spec: `enum LogLevel` is declared in
`public_definitions.h`, which is not among the sources. The plugin logs with
one severity, the constant `LogLevel_INFO`. -/
inductive LogLevel where
  | LogLevel_INFO
deriving DecidableEq, Repr

/-- Modelled from the spec: `enum PluginMenuType` is declared in
`plugin_definitions.h`, which is not among the sources. Besides the global
scope of the two menu entries it has the channel and the client context menu,
the three kinds the comments of `ts3plugin_initMenus` and
`ts3plugin_onMenuItemEvent` list. -/
inductive PluginMenuType where
  | PLUGIN_MENU_TYPE_GLOBAL
  | PLUGIN_MENU_TYPE_CHANNEL
  | PLUGIN_MENU_TYPE_CLIENT
deriving DecidableEq, Repr

/-- A call to one of the two output functions of the host, with its arguments:
`printMessageToCurrentTab(message)` (the current view) and
`logMessage(message, severity, channel, logID)` (the log). -/
inductive HostCall where
  | printMessageToCurrentTab (message : List Byte)
  | logMessage (message : List Byte) (severity : LogLevel) (channel : List Byte) (logID : Nat)
deriving DecidableEq, Repr

/-- The messages of the calls to `printMessageToCurrentTab` in a trace. -/
def currentViewCalls : List HostCall → List (List Byte)
  | [] => []
  | HostCall.printMessageToCurrentTab m :: rest => m :: currentViewCalls rest
  | HostCall.logMessage _ _ _ _ :: rest => currentViewCalls rest

/-- The messages of the calls to `logMessage` in a trace. -/
def logCalls : List HostCall → List (List Byte)
  | [] => []
  | HostCall.printMessageToCurrentTab _ :: rest => logCalls rest
  | HostCall.logMessage m _ _ _ :: rest => m :: logCalls rest

/-- Modelled from the spec: the host capabilities of its section 6, which the
source reaches through `ts3Functions` (`struct TS3Functions` is declared in
`ts3_functions.h`, not among the sources). The two lookups return an error
code or write a result through a pointer; `logMessage` returns a code that the
plugin drops; `time` and `ctime` are the C library clock, `time(0)` and the
text `ctime` makes of a time. -/
structure Host where
  getChannelOfClient : Nat → Nat → Except Nat Nat
  getChannelVariableAsString : Nat → Nat → ChannelProperties → Except Nat (List Byte)
  logMessage : List Byte → LogLevel → List Byte → Nat → Nat
  time : Nat
  ctime : Nat → List Byte

/-- The integer variable `clientChannelID` after the call of
`getChannelOfClient`, whose return code the plugin does not look at: the
looked-up value when the lookup succeeds, the number the variable held before
when it fails. -/
def outParam (r : Except Nat Nat) (var : Nat) : Nat :=
  match r with
  | .ok v => v
  | .error _ => var

/-- The pointer variable `clientChannelName` after the call of
`getChannelVariableAsString`, whose return code the plugin does not look at:
it points to the looked-up text when the lookup succeeds; when the lookup
fails it is still uninitialised and points to no text (`none`). -/
def outPointer (r : Except Nat (List Byte)) : Option (List Byte) :=
  match r with
  | .ok v => some v
  | .error _ => none

/-- The global state of the plugin: the flag `g_bBlockPokes`. -/
structure PluginState where
  g_bBlockPokes : Bool
deriving DecidableEq, Repr

/-- The state at load: `bool g_bBlockPokes = false;`. -/
def PluginState.initial : PluginState := ⟨false⟩

/-- The preprocessor symbol `PLUGIN_NAME`. -/
def PLUGIN_NAME : List Byte := lit "Poke Blocker"

/-- The preprocessor symbol `IGNORE_EMPTY_POKES` is defined in the source. -/
def IGNORE_EMPTY_POKES : Bool := true

/-! ## The poke handler -/

/-- The arguments of `ts3plugin_onClientPokeEvent`. -/
structure PokeEvent where
  serverConnectionHandlerID : Nat
  fromClientID : Nat
  pokerName : List Byte
  pokerUniqueIdentity : List Byte
  message : List Byte
  ffIgnored : Int

/-- The local `uint64 clientChannelID` of the poke handler is declared without
an initialiser: the number it holds on entry is indeterminate, and an input of
the model. -/
structure PokeFrame where
  clientChannelID : Nat

/-- The values computed in the block `if (g_bBlockPokes)` before the output
calls. `clientChannelName` is `none` while the pointer is uninitialised;
`discarded` is `none` when the evaluation of the dropped expression statement
reads through that pointer. -/
structure PokeLocals where
  clientChannelID : Nat
  clientChannelIDString : List Byte
  clientChannelName : Option (List Byte)
  pokerNameEncoded : List Byte
  szInfoMsg : List Byte
  discarded : Option (List Byte)

/-- The statements of the block `if (g_bBlockPokes)` up to the output calls.

The preprocessor symbol `TIME` is defined as `ctime(&now);`, semicolon
included. The line
that declares `szInfoMsg` therefore expands to two statements: the declaration
`std::string szInfoMsg = "[color=black] " + ctime(&now);` and the expression
statement `+ " Blocked poke from user ..." + ... + "[/color]\"\n[/color]";`,
whose value is dropped (field `discarded`). The `+` of the declaration joins a
string literal and the `char*` of `ctime`; it is read as the concatenation of
the two texts, as everywhere else in the line.

The dropped expression is evaluated all the same, and its operand
`clientChannelName` is read as a C string: after a failed lookup that is a read
through an uninitialised pointer, and the expression has no value. -/
def pokeLocals (host : Host) (frame : PokeFrame) (ev : PokeEvent) : PokeLocals :=
  let now := host.time
  let clientChannelID :=
    outParam (host.getChannelOfClient ev.serverConnectionHandlerID ev.fromClientID)
      frame.clientChannelID
  let clientChannelIDString := tostring clientChannelID
  let clientChannelName :=
    outPointer (host.getChannelVariableAsString ev.serverConnectionHandlerID clientChannelID
      ChannelProperties.CHANNEL_NAME)
  let pokerNameEncoded := url_encode ev.pokerName
  let szInfoMsg := lit "[color=black] " ++ host.ctime now
  let discarded :=
    match clientChannelName with
    | none => none
    | some channelName =>
      some (lit " Blocked poke from user \"[color=red][url=client://0/"
        ++ ev.pokerUniqueIdentity
        ++ lit "~" ++ pokerNameEncoded ++ lit "]" ++ ev.pokerName
        ++ lit "[/url][/color]\" in channel \x27[URL=channelid://" ++ clientChannelIDString
        ++ lit "]" ++ channelName
        ++ lit "[/url]\x27 with message \"[color=black]" ++ ev.message
        ++ lit "[/color]\"\n[/color]")
  { clientChannelID := clientChannelID
    clientChannelIDString := clientChannelIDString
    clientChannelName := clientChannelName
    pokerNameEncoded := pokerNameEncoded
    szInfoMsg := szInfoMsg
    discarded := discarded }

/-- An output call under the guard
`#ifdef IGNORE_EMPTY_POKES  if (std::string(message) != "") {  #endif`. -/
def guardedCall (message : List Byte) (call : HostCall) : List HostCall :=
  if IGNORE_EMPTY_POKES then (if message ≠ [] then [call] else []) else [call]

/-- The handler `ts3plugin_onClientPokeEvent`: its return value (1 makes the
client drop the poke, 0 makes it process the poke) and the output calls it
makes, in order. It reads the flag and does not write it.

The return value is `none` for a run that does not return: with the flag set,
the dropped expression statement is evaluated before the output calls and
before `return 1`, outside the guards on the message, and when it reads
through the uninitialised `clientChannelName` the run ends there, with no
output call made. -/
def ts3plugin_onClientPokeEvent (st : PluginState) (host : Host) (frame : PokeFrame)
    (ev : PokeEvent) : Option Int × List HostCall :=
  if st.g_bBlockPokes then
    let locals := pokeLocals host frame ev
    match locals.discarded with
    | none => (none, [])
    | some _ =>
      let shown := guardedCall ev.message (HostCall.printMessageToCurrentTab locals.szInfoMsg)
      let logged := guardedCall ev.message
        (HostCall.logMessage locals.szInfoMsg LogLevel.LogLevel_INFO (lit "Plugin")
          ev.serverConnectionHandlerID)
      (some 1, shown ++ logged)
  else
    (some 0, [])

/-! ## The menu -/

/-- The first constant of the anonymous `enum` of menu identifiers. -/
def MENU_ID_GLOBAL_1 : Int := 0

/-- The second constant of the anonymous `enum` of menu identifiers. -/
def MENU_ID_GLOBAL_2 : Int := 1

/-- A menu entry as `createMenuItem` fills it in. -/
structure PluginMenuItem where
  type : PluginMenuType
  id : Int
  text : List Byte
  icon : List Byte
deriving DecidableEq, Repr

/-- Modelled from the spec: the constant `PLUGIN_MENU_BUFSZ` is defined in
`plugin_definitions.h`, which is not among the sources; the comments of
`ts3plugin_initMenus` give 128 characters as the greatest length of a menu
text and of an icon name. -/
def PLUGIN_MENU_BUFSZ : Nat := 128

/-- The text left in a buffer of `destSize` bytes by `_strcpy(dest, destSize,
src)`, in the branch of the source that is not for Windows: `strncpy` of
`destSize - 1` bytes, then a terminator in the last byte. -/
def _strcpy (destSize : Nat) (src : List Byte) : List Byte := src.take (destSize - 1)

/-- The helper `createMenuItem`: the text and the icon name are copied with
`_strcpy` into buffers of `PLUGIN_MENU_BUFSZ` bytes. -/
def createMenuItem (type : PluginMenuType) (id : Int) (text icon : List Byte) :
    PluginMenuItem :=
  ⟨type, id, _strcpy PLUGIN_MENU_BUFSZ text, _strcpy PLUGIN_MENU_BUFSZ icon⟩

/-- The menu entries `ts3plugin_initMenus` hands to the host, in order. -/
def ts3plugin_initMenus : List PluginMenuItem :=
  [ createMenuItem PluginMenuType.PLUGIN_MENU_TYPE_GLOBAL MENU_ID_GLOBAL_1
      (lit "Block") (lit "block.png"),
    createMenuItem PluginMenuType.PLUGIN_MENU_TYPE_GLOBAL MENU_ID_GLOBAL_2
      (lit "Allow") (lit "allow.png") ]

/-- The handler `ts3plugin_onMenuItemEvent`: the state after the call and the
output calls it makes, in order. -/
def ts3plugin_onMenuItemEvent (st : PluginState) (_serverConnectionHandlerID : Nat)
    (type : PluginMenuType) (menuItemID : Int) (_selectedItemID : Nat) :
    PluginState × List HostCall :=
  if type = PluginMenuType.PLUGIN_MENU_TYPE_GLOBAL then
    if menuItemID = MENU_ID_GLOBAL_1 then
      ({ st with g_bBlockPokes := true },
        [HostCall.printMessageToCurrentTab
          (lit "[" ++ PLUGIN_NAME ++ lit "] ** Blocking pokes **\n")])
    else if menuItemID = MENU_ID_GLOBAL_2 then
      ({ st with g_bBlockPokes := false },
        [HostCall.printMessageToCurrentTab
          (lit "[" ++ PLUGIN_NAME ++ lit "] ** Allowing pokes **\n")])
    else
      (st, [])
  else
    (st, [])

/-! ## Sample inputs -/

/-- A host on which both lookups succeed: every client is in channel 5, whose
name is `Lobby`; the clock reads 0. -/
def lobbyHost : Host where
  getChannelOfClient := fun _ _ => Except.ok 5
  getChannelVariableAsString := fun _ _ _ => Except.ok (lit "Lobby")
  logMessage := fun _ _ _ _ => 0
  time := 0
  ctime := fun _ => lit "Thu Jan  1 00:00:00 1970\n"

/-- A host on which both lookups fail, with the error codes 512 and 768. -/
def failingHost : Host where
  getChannelOfClient := fun _ _ => Except.error 512
  getChannelVariableAsString := fun _ _ _ => Except.error 768
  logMessage := fun _ _ _ _ => 0
  time := 0
  ctime := fun _ => lit "Thu Jan  1 00:00:00 1970\n"

/-- A host on which the client is found in channel 5 and the lookup of the
channel name fails, with the error code 768. -/
def nameFailingHost : Host where
  getChannelOfClient := fun _ _ => Except.ok 5
  getChannelVariableAsString := fun _ _ _ => Except.error 768
  logMessage := fun _ _ _ _ => 0
  time := 0
  ctime := fun _ => lit "Thu Jan  1 00:00:00 1970\n"

/-- Some number in the uninitialised `clientChannelID`. -/
def sampleFrame : PokeFrame := ⟨3735928559⟩

/-- The poke of the specification's example: sender `Bob`, identity `abc123`,
message `hi`. -/
def bobPoke : PokeEvent := ⟨1, 7, lit "Bob", lit "abc123", lit "hi", 0⟩

/-- The same poke with an empty message. -/
def emptyPoke : PokeEvent := ⟨1, 7, lit "Bob", lit "abc123", [], 0⟩

end PokeBlocker

namespace PokeBlocker

set_option maxRecDepth 100000

/-! ## Facts about `url_encode` -/

theorem keepIntact_iff (c : Nat) : keepIntact c = true ↔ isUnreserved c := by
  simp only [keepIntact, isalnum, isUnreserved, Bool.or_eq_true, Bool.and_eq_true,
    decide_eq_true_eq, beq_iff_eq]
  unfold Byte
  constructor <;> intro h <;> omega

theorem hex_field_of_byte :
    ∀ n, n < 256 →
      (List.replicate (2 - ((Nat.toDigits 16 n).map Char.toNat).length) 48
          ++ (Nat.toDigits 16 n).map Char.toNat)
        = [hexDigit (n / 16), hexDigit (n % 16)] := by
  decide

/-- One loop step on a stream in the state `url_encode` keeps it in (fill
`'0'`, base `hex`, width 0) appends the piece of the character and leaves the
formatting state as it was. -/
theorem url_encode_step_eq (buf : List Byte) (c : Byte) :
    url_encode_step ⟨buf, 48, true, 0⟩ c = ⟨buf ++ encodedPiece c, 48, true, 0⟩ := by
  unfold url_encode_step encodedPiece
  by_cases h : isUnreserved c
  · rw [if_pos ((keepIntact_iff c).2 h), if_pos h]
    simp [OStringStream.putChar, OStringStream.field]
  · have hk : ¬ keepIntact c = true := fun hk => h ((keepIntact_iff c).1 hk)
    rw [if_neg hk, if_neg h]
    have hb : c % 256 < 256 := Nat.mod_lt _ (by decide)
    have hf := hex_field_of_byte (c % 256) hb
    simp only [OStringStream.putChar, OStringStream.putInt, OStringStream.setw,
      OStringStream.field, OStringStream.digits, if_true]
    rw [hf]
    simp

theorem url_encode_foldl (value : List Byte) (buf : List Byte) :
    value.foldl url_encode_step ⟨buf, 48, true, 0⟩
      = ⟨buf ++ value.flatMap encodedPiece, 48, true, 0⟩ := by
  induction value generalizing buf with
  | nil => simp
  | cons c rest ih =>
    rw [List.foldl_cons, url_encode_step_eq, ih]
    simp [List.flatMap_cons, List.append_assoc]

/-- `url_encode` is the concatenation of the pieces of its input bytes. -/
theorem url_encode_eq_flatMap (value : List Byte) :
    url_encode value = value.flatMap encodedPiece := by
  unfold url_encode
  have h : (OStringStream.init.fill 48).hex = ⟨[], 48, true, 0⟩ := rfl
  rw [h, url_encode_foldl]
  simp [OStringStream.str]

theorem url_encode_nil : url_encode [] = [] := rfl

theorem url_encode_cons (c : Byte) (rest : List Byte) :
    url_encode (c :: rest) = encodedPiece c ++ url_encode rest := by
  simp [url_encode_eq_flatMap, List.flatMap_cons]

theorem hexDigit_isHexDigit (d : Nat) (h : d < 16) : isHexDigit (hexDigit d) = true := by
  unfold isHexDigit hexDigit
  unfold Byte
  split <;> simp <;> omega

theorem hexVal_hexDigit (d : Nat) (h : d < 16) : hexVal (hexDigit d) = d := by
  unfold hexVal hexDigit
  unfold Byte
  split_ifs <;> omega

theorem encodedPiece_of_unreserved (c : Byte) (h : isUnreserved c) :
    encodedPiece c = [c] := by
  simp [encodedPiece, h]

theorem url_encode_of_unreserved (s : List Byte) (h : ∀ c ∈ s, isUnreserved c) :
    url_encode s = s := by
  induction s with
  | nil => rfl
  | cons c rest ih =>
    rw [url_encode_cons, encodedPiece_of_unreserved c (h c (List.mem_cons_self _ _)),
      ih (fun d hd => h d (List.mem_cons_of_mem _ hd))]
    rfl

theorem percentDecodeFrom_plain (c : Byte) (t : List Byte) (h : c ≠ 37) :
    percentDecodeFrom 0 (c :: t) = c :: percentDecodeFrom 0 t := by
  cases t with
  | nil => rfl
  | cons a t1 =>
    cases t1 with
    | nil => rfl
    | cons b t2 => simp [percentDecodeFrom, h]

/-- Decoding the piece of a byte gives the byte back. -/
theorem percentDecodeFrom_piece (c : Byte) (t : List Byte) (hc : c < 256) :
    percentDecodeFrom 0 (encodedPiece c ++ t) = c :: percentDecodeFrom 0 t := by
  unfold encodedPiece
  by_cases h : isUnreserved c
  · rw [if_pos h]
    have h37 : c ≠ 37 := by
      unfold isUnreserved at h
      unfold Byte at *
      omega
    exact percentDecodeFrom_plain c t h37
  · rw [if_neg h]
    have hm : c % 256 = c := Nat.mod_eq_of_lt hc
    have hhi : c / 16 < 16 := by unfold Byte at *; omega
    have hlo : c % 16 < 16 := Nat.mod_lt _ (by decide)
    rw [hm]
    have hv : hexVal (hexDigit (c / 16)) * 16 + hexVal (hexDigit (c % 16)) = c := by
      rw [hexVal_hexDigit _ hhi, hexVal_hexDigit _ hlo]
      unfold Byte at *
      omega
    simp [percentDecodeFrom, hexDigit_isHexDigit _ hhi, hexDigit_isHexDigit _ hlo, hv]

theorem percentDecode_url_encode_of_bytes (s : List Byte) (h : ∀ c ∈ s, c < 256) :
    percentDecode (url_encode s) = s := by
  unfold percentDecode
  induction s with
  | nil => rfl
  | cons c rest ih =>
    rw [url_encode_cons, percentDecodeFrom_piece c _ (h c (List.mem_cons_self _ _)),
      ih (fun d hd => h d (List.mem_cons_of_mem _ hd))]

/-! ## Facts about the handlers -/

theorem guardedCall_of_nonempty (message : List Byte) (call : HostCall) (h : message ≠ []) :
    guardedCall message call = [call] := by
  simp [guardedCall, h]

theorem guardedCall_of_empty (call : HostCall) : guardedCall [] call = [] := by
  simp [guardedCall, IGNORE_EMPTY_POKES]

/-- The text of `szInfoMsg` is the first literal of the line followed by the
text of `ctime`, whatever the event and the lookups. -/
theorem pokeLocals_szInfoMsg (host : Host) (frame : PokeFrame) (ev : PokeEvent) :
    (pokeLocals host frame ev).szInfoMsg = lit "[color=black] " ++ host.ctime host.time :=
  rfl

/-- The run of the poke handler with the flag false. -/
theorem poke_run_flag_false (host : Host) (frame : PokeFrame) (ev : PokeEvent) :
    ts3plugin_onClientPokeEvent ⟨false⟩ host frame ev = (some 0, []) := by
  simp [ts3plugin_onClientPokeEvent]

/-- The run of the poke handler with the flag set when the lookup of the
channel name succeeds: it returns 1 after the two guarded output calls. -/
theorem poke_run_of_name (host : Host) (frame : PokeFrame) (ev : PokeEvent)
    (name : List Byte)
    (h : host.getChannelVariableAsString ev.serverConnectionHandlerID
        (outParam (host.getChannelOfClient ev.serverConnectionHandlerID ev.fromClientID)
          frame.clientChannelID) ChannelProperties.CHANNEL_NAME = Except.ok name) :
    ts3plugin_onClientPokeEvent ⟨true⟩ host frame ev =
      (some 1,
        guardedCall ev.message
            (HostCall.printMessageToCurrentTab (pokeLocals host frame ev).szInfoMsg)
          ++ guardedCall ev.message
            (HostCall.logMessage (pokeLocals host frame ev).szInfoMsg LogLevel.LogLevel_INFO
              (lit "Plugin") ev.serverConnectionHandlerID)) := by
  simp [ts3plugin_onClientPokeEvent, pokeLocals, h, outPointer]

/-- The run of the poke handler with the flag set when the lookup of the
channel name fails: no output call and no return value. -/
theorem poke_run_of_failed_name (host : Host) (frame : PokeFrame) (ev : PokeEvent)
    (code : Nat)
    (h : host.getChannelVariableAsString ev.serverConnectionHandlerID
        (outParam (host.getChannelOfClient ev.serverConnectionHandlerID ev.fromClientID)
          frame.clientChannelID) ChannelProperties.CHANNEL_NAME = Except.error code) :
    ts3plugin_onClientPokeEvent ⟨true⟩ host frame ev = (none, []) := by
  simp [ts3plugin_onClientPokeEvent, pokeLocals, h, outPointer]

/-- No run of the poke handler makes an output call when the flag is false or
the message is empty. -/
theorem poke_calls_of_silent (st : PluginState) (host : Host) (frame : PokeFrame)
    (ev : PokeEvent) (h : st.g_bBlockPokes = false ∨ ev.message = []) :
    (ts3plugin_onClientPokeEvent st host frame ev).2 = [] := by
  cases hg : st.g_bBlockPokes
  · simp [ts3plugin_onClientPokeEvent, hg]
  · have hm : ev.message = [] := by
      rcases h with h | h
      · rw [hg] at h; cases h
      · exact h
    unfold ts3plugin_onClientPokeEvent
    rw [hg, if_pos rfl]
    dsimp only
    split <;> simp [hm, guardedCall_of_empty]

/-! ## The claims -/

/-- C1, evaluated at the poke of Bob with the toggle true on a host whose
lookups fail: the handler does not return 1 (Drop); the run reads through the
uninitialised `clientChannelName` and has no return value. On the host whose
lookups succeed the same poke returns 1, and with the toggle false the handler
returns 0 (Pass) on both hosts. -/
theorem poke_decision_on_failed_lookups :
    (ts3plugin_onClientPokeEvent ⟨true⟩ failingHost sampleFrame bobPoke).1 = none ∧
      (ts3plugin_onClientPokeEvent ⟨true⟩ failingHost sampleFrame bobPoke).1 ≠ some 1 ∧
      (ts3plugin_onClientPokeEvent ⟨true⟩ lobbyHost sampleFrame bobPoke).1 = some 1 ∧
      (ts3plugin_onClientPokeEvent ⟨false⟩ failingHost sampleFrame bobPoke).1 = some 0 ∧
      (ts3plugin_onClientPokeEvent ⟨false⟩ lobbyHost sampleFrame bobPoke).1 = some 0 := by
  refine ⟨by decide, by decide, by decide, by decide, by decide⟩

/-- C2, evaluated at the poke of Bob with message `hi` and the toggle true on a
host whose lookups fail: the handler makes no call to
`printMessageToCurrentTab`, no call to `logMessage`, and does not return. On
the host whose lookups succeed the same poke gives one call to each, with the
same text, and returns 1 (Drop). -/
theorem poke_not_announced_on_failed_lookups :
    ts3plugin_onClientPokeEvent ⟨true⟩ failingHost sampleFrame bobPoke = (none, []) ∧
      currentViewCalls (ts3plugin_onClientPokeEvent ⟨true⟩ failingHost sampleFrame bobPoke).2
        = [] ∧
      logCalls (ts3plugin_onClientPokeEvent ⟨true⟩ failingHost sampleFrame bobPoke).2 = [] ∧
      ts3plugin_onClientPokeEvent ⟨true⟩ lobbyHost sampleFrame bobPoke =
        (some 1,
          [HostCall.printMessageToCurrentTab (pokeLocals lobbyHost sampleFrame bobPoke).szInfoMsg,
           HostCall.logMessage (pokeLocals lobbyHost sampleFrame bobPoke).szInfoMsg
             LogLevel.LogLevel_INFO (lit "Plugin") 1]) := by
  refine ⟨by decide, by decide, by decide, by decide⟩

/-- C3: when the toggle is false or the message is empty, the poke handler
makes no call to `printMessageToCurrentTab` and no call to `logMessage`, on
every host; with the toggle false it returns 0 (Pass); with the toggle true and
an empty message it returns 1 (Drop) when the lookup of the channel name
succeeds. -/
theorem poke_silent (st : PluginState) (host : Host) (frame : PokeFrame) (ev : PokeEvent)
    (h : st.g_bBlockPokes = false ∨ ev.message = []) :
    (ts3plugin_onClientPokeEvent st host frame ev).2 = [] ∧
      currentViewCalls (ts3plugin_onClientPokeEvent st host frame ev).2 = [] ∧
      logCalls (ts3plugin_onClientPokeEvent st host frame ev).2 = [] ∧
      (st.g_bBlockPokes = false →
        (ts3plugin_onClientPokeEvent st host frame ev).1 = some 0) ∧
      (∀ name : List Byte, st.g_bBlockPokes = true →
        host.getChannelVariableAsString ev.serverConnectionHandlerID
            (outParam (host.getChannelOfClient ev.serverConnectionHandlerID ev.fromClientID)
              frame.clientChannelID) ChannelProperties.CHANNEL_NAME = Except.ok name →
        (ts3plugin_onClientPokeEvent st host frame ev).1 = some 1) := by
  have hc := poke_calls_of_silent st host frame ev h
  refine ⟨hc, by rw [hc]; rfl, by rw [hc]; rfl, ?_, ?_⟩
  · intro hg
    have hst : st = ⟨false⟩ := by cases st; simp_all
    rw [hst, poke_run_flag_false]
  · intro name hg hname
    have hst : st = ⟨true⟩ := by cases st; simp_all
    rw [hst, poke_run_of_name host frame ev name hname]

/-- Witness of C3: Bob's poke `hi` with the toggle false gives 0 (Pass) and no
call; the poke with the empty message and the toggle true, from channel 5
`Lobby`, gives 1 (Drop) and no call. -/
theorem poke_silent_witness :
    ts3plugin_onClientPokeEvent ⟨false⟩ lobbyHost sampleFrame bobPoke = (some 0, []) ∧
      ts3plugin_onClientPokeEvent ⟨true⟩ lobbyHost sampleFrame emptyPoke = (some 1, []) :=
  ⟨Prod.ext ((poke_silent ⟨false⟩ lobbyHost sampleFrame bobPoke (Or.inl rfl)).2.2.2.1 rfl)
      (poke_silent ⟨false⟩ lobbyHost sampleFrame bobPoke (Or.inl rfl)).1,
   Prod.ext
      ((poke_silent ⟨true⟩ lobbyHost sampleFrame emptyPoke (Or.inr rfl)).2.2.2.2
        (lit "Lobby") rfl rfl)
      (poke_silent ⟨true⟩ lobbyHost sampleFrame emptyPoke (Or.inr rfl)).1⟩

/-- C4: `url_encode` returns the concatenation, in input order, of one piece per
input byte: the byte itself if it is unreserved, otherwise `%` followed by
exactly two hexadecimal digits whose value is the byte as an unsigned 8-bit
number; `url_encode("a b&c") = "a%20b%26c"` and `url_encode("") = ""`. -/
theorem url_encode_pieces :
    (∀ value : List Byte, url_encode value = value.flatMap encodedPiece) ∧
    (∀ c : Byte, isUnreserved c → encodedPiece c = [c]) ∧
    (∀ c : Byte, ¬ isUnreserved c →
      ∃ h l : Byte, encodedPiece c = [37, h, l] ∧ isHexDigit h = true ∧ isHexDigit l = true ∧
        hexVal h * 16 + hexVal l = c % 256) ∧
    url_encode (lit "a b&c") = lit "a%20b%26c" ∧
    url_encode (lit "") = lit "" := by
  refine ⟨url_encode_eq_flatMap, encodedPiece_of_unreserved, ?_, by decide, by decide⟩
  intro c h
  have hb : c % 256 < 256 := Nat.mod_lt _ (by decide)
  have hhi : c % 256 / 16 < 16 := by unfold Byte at *; omega
  have hlo : c % 256 % 16 < 16 := Nat.mod_lt _ (by decide)
  refine ⟨hexDigit (c % 256 / 16), hexDigit (c % 256 % 16), by simp [encodedPiece, h],
    hexDigit_isHexDigit _ hhi, hexDigit_isHexDigit _ hlo, ?_⟩
  rw [hexVal_hexDigit _ hhi, hexVal_hexDigit _ hlo]
  unfold Byte at *
  omega

/-- C5: for every string of printable ASCII characters (bytes `0x20` to `0x7E`),
the standard percent-decoder applied to `url_encode(s)` yields `s`. -/
theorem percentDecode_url_encode (s : List Byte) (h : ∀ c ∈ s, isPrintableAscii c) :
    percentDecode (url_encode s) = s := by
  apply percentDecode_url_encode_of_bytes
  intro c hc
  have := h c hc
  unfold isPrintableAscii at this
  unfold Byte at *
  omega

/-- Witness of C5: the string `a b&c%~`. -/
theorem percentDecode_url_encode_witness :
    (∀ c ∈ lit "a b&c%~", isPrintableAscii c) ∧
      percentDecode (url_encode (lit "a b&c%~")) = lit "a b&c%~" :=
  ⟨by decide, percentDecode_url_encode (lit "a b&c%~") (by decide)⟩

/-- C6, evaluated at the poke of Bob (identity `abc123`, message `hi`) from
channel 5 `Lobby` with the toggle true: the notice sent to both output
functions is `[color=black] ` followed by the text of `ctime`, and contains
none of `abc123`, `Bob`, `5`, `Lobby`, `hi`; the client reference, the channel
reference and the message are in the value of the dropped expression
statement only. -/
theorem poke_notice_of_bob :
    ts3plugin_onClientPokeEvent ⟨true⟩ lobbyHost sampleFrame bobPoke =
        (some 1, [HostCall.printMessageToCurrentTab
               (lit "[color=black] Thu Jan  1 00:00:00 1970\n"),
             HostCall.logMessage (lit "[color=black] Thu Jan  1 00:00:00 1970\n")
               LogLevel.LogLevel_INFO (lit "Plugin") 1]) ∧
      ¬ (lit "abc123" <:+: lit "[color=black] Thu Jan  1 00:00:00 1970\n") ∧
      ¬ (lit "Bob" <:+: lit "[color=black] Thu Jan  1 00:00:00 1970\n") ∧
      ¬ (lit "5" <:+: lit "[color=black] Thu Jan  1 00:00:00 1970\n") ∧
      ¬ (lit "Lobby" <:+: lit "[color=black] Thu Jan  1 00:00:00 1970\n") ∧
      ¬ (lit "hi" <:+: lit "[color=black] Thu Jan  1 00:00:00 1970\n") ∧
      (∃ d : List Byte, (pokeLocals lobbyHost sampleFrame bobPoke).discarded = some d ∧
        (lit "[url=client://0/abc123~Bob]Bob[/url]" <:+: d) ∧
        (lit "[URL=channelid://5]Lobby[/url]" <:+: d) ∧
        (lit "\"[color=black]hi[/color]\"" <:+: d)) := by
  refine ⟨by decide, by decide, by decide, by decide, by decide, by decide,
    ⟨_, rfl, by decide, by decide, by decide⟩⟩

/-- C7: the menu table of `ts3plugin_initMenus` gives the label `Block` the
global identifier `MENU_ID_GLOBAL_1` and the label `Allow` the global
identifier `MENU_ID_GLOBAL_2`; for every prior state, a global menu event with
the first leaves the toggle true, one with the second leaves it false, and
each makes exactly one call, to `printMessageToCurrentTab`. -/
theorem menu_block_allow (st : PluginState) (serverConnectionHandlerID selectedItemID : Nat) :
    ts3plugin_initMenus =
        [⟨PluginMenuType.PLUGIN_MENU_TYPE_GLOBAL, MENU_ID_GLOBAL_1, lit "Block", lit "block.png"⟩,
         ⟨PluginMenuType.PLUGIN_MENU_TYPE_GLOBAL, MENU_ID_GLOBAL_2, lit "Allow", lit "allow.png"⟩] ∧
      ts3plugin_onMenuItemEvent st serverConnectionHandlerID
          PluginMenuType.PLUGIN_MENU_TYPE_GLOBAL MENU_ID_GLOBAL_1 selectedItemID =
        (⟨true⟩, [HostCall.printMessageToCurrentTab (lit "[Poke Blocker] ** Blocking pokes **\n")]) ∧
      ts3plugin_onMenuItemEvent st serverConnectionHandlerID
          PluginMenuType.PLUGIN_MENU_TYPE_GLOBAL MENU_ID_GLOBAL_2 selectedItemID =
        (⟨false⟩, [HostCall.printMessageToCurrentTab (lit "[Poke Blocker] ** Allowing pokes **\n")]) ∧
      ts3plugin_onMenuItemEvent PluginState.initial serverConnectionHandlerID
          PluginMenuType.PLUGIN_MENU_TYPE_GLOBAL MENU_ID_GLOBAL_1 selectedItemID =
        (⟨true⟩, [HostCall.printMessageToCurrentTab (lit "[Poke Blocker] ** Blocking pokes **\n")]) := by
  refine ⟨by decide, ?_, ?_, ?_⟩
  · have h : lit "[" ++ PLUGIN_NAME ++ lit "] ** Blocking pokes **\n" =
        lit "[Poke Blocker] ** Blocking pokes **\n" := by decide
    simp [ts3plugin_onMenuItemEvent, h]
  · have h : lit "[" ++ PLUGIN_NAME ++ lit "] ** Allowing pokes **\n" =
        lit "[Poke Blocker] ** Allowing pokes **\n" := by decide
    have h12 : MENU_ID_GLOBAL_2 ≠ MENU_ID_GLOBAL_1 := by decide
    simp [ts3plugin_onMenuItemEvent, h, h12]
  · have h : lit "[" ++ PLUGIN_NAME ++ lit "] ** Blocking pokes **\n" =
        lit "[Poke Blocker] ** Blocking pokes **\n" := by decide
    simp [ts3plugin_onMenuItemEvent, h]

/-- C8: for every string made only of unreserved characters, `url_encode(s) = s`;
hence `url_encode` is idempotent on such strings. -/
theorem url_encode_unreserved_id (s : List Byte) (h : ∀ c ∈ s, isUnreserved c) :
    url_encode s = s ∧ url_encode (url_encode s) = url_encode s := by
  have h1 := url_encode_of_unreserved s h
  exact ⟨h1, by rw [h1, h1]⟩

/-- Witness of C8: the string `Az09-_.~`. -/
theorem url_encode_unreserved_id_witness :
    (∀ c ∈ lit "Az09-_.~", isUnreserved c) ∧
      url_encode (lit "Az09-_.~") = lit "Az09-_.~" ∧
      url_encode (url_encode (lit "Az09-_.~")) = url_encode (lit "Az09-_.~") :=
  ⟨by decide, url_encode_unreserved_id (lit "Az09-_.~") (by decide)⟩

/-- C9: a menu event whose identifier is neither `MENU_ID_GLOBAL_1` (Block) nor
`MENU_ID_GLOBAL_2` (Allow), of any menu type and for every prior state, leaves
the state unchanged and makes no output call. -/
theorem menu_other_id_noop (st : PluginState) (serverConnectionHandlerID : Nat)
    (type : PluginMenuType) (menuItemID : Int) (selectedItemID : Nat)
    (h1 : menuItemID ≠ MENU_ID_GLOBAL_1) (h2 : menuItemID ≠ MENU_ID_GLOBAL_2) :
    ts3plugin_onMenuItemEvent st serverConnectionHandlerID type menuItemID selectedItemID =
      (st, []) := by
  simp [ts3plugin_onMenuItemEvent, h1, h2]

/-- Witness of C9: the identifier 2 on a global menu, with the toggle true. -/
theorem menu_other_id_noop_witness :
    (2 : Int) ≠ MENU_ID_GLOBAL_1 ∧ (2 : Int) ≠ MENU_ID_GLOBAL_2 ∧
      ts3plugin_onMenuItemEvent ⟨true⟩ 1 PluginMenuType.PLUGIN_MENU_TYPE_GLOBAL 2 0 =
        (⟨true⟩, []) :=
  ⟨by decide, by decide,
    menu_other_id_noop ⟨true⟩ 1 PluginMenuType.PLUGIN_MENU_TYPE_GLOBAL 2 0 (by decide) (by decide)⟩

/-- C10, evaluated at the poke of Bob with message `hi` and the toggle true on
hosts whose lookup of the channel name fails: the handler does not look at the
error codes, `clientChannelID` keeps the number it had on entry,
`clientChannelName` stays uninitialised and is read by the dropped expression
statement, and the run ends there: no notice and no return value, where the
claim has the handler return 1 (Drop). -/
theorem poke_failed_lookups_fault :
    failingHost.getChannelOfClient bobPoke.serverConnectionHandlerID bobPoke.fromClientID =
        Except.error 512 ∧
      failingHost.getChannelVariableAsString bobPoke.serverConnectionHandlerID
          sampleFrame.clientChannelID ChannelProperties.CHANNEL_NAME = Except.error 768 ∧
      (pokeLocals failingHost sampleFrame bobPoke).clientChannelID =
        sampleFrame.clientChannelID ∧
      (pokeLocals failingHost sampleFrame bobPoke).clientChannelName = none ∧
      (pokeLocals failingHost sampleFrame bobPoke).discarded = none ∧
      ts3plugin_onClientPokeEvent ⟨true⟩ failingHost sampleFrame bobPoke = (none, []) ∧
      (ts3plugin_onClientPokeEvent ⟨true⟩ failingHost sampleFrame bobPoke).1 ≠ some 1 ∧
      ts3plugin_onClientPokeEvent ⟨true⟩ nameFailingHost sampleFrame bobPoke = (none, []) := by
  refine ⟨rfl, rfl, rfl, rfl, rfl, by decide, by decide, by decide⟩

/-! ## The alphabet of the output of `url_encode` -/

theorem hexDigit_unreserved (d : Nat) (h : d < 16) : isUnreserved (hexDigit d) := by
  unfold isUnreserved hexDigit
  unfold Byte
  split <;> omega

theorem hexDigit_ne_percent (d : Nat) : hexDigit d ≠ 37 := by
  unfold hexDigit
  unfold Byte
  split <;> omega

theorem unreserved_ne_percent (c : Byte) (h : isUnreserved c) : c ≠ 37 := by
  unfold isUnreserved at h
  unfold Byte at *
  omega

/-- Every byte of a piece is unreserved or is `%`. -/
theorem encodedPiece_alphabet (c b : Byte) (hb : b ∈ encodedPiece c) :
    isUnreserved b ∨ b = 37 := by
  unfold encodedPiece at hb
  by_cases h : isUnreserved c
  · rw [if_pos h] at hb
    rw [List.mem_singleton] at hb
    exact Or.inl (hb ▸ h)
  · rw [if_neg h] at hb
    have hhi : c % 256 / 16 < 16 := by unfold Byte at *; omega
    have hlo : c % 256 % 16 < 16 := Nat.mod_lt _ (by decide)
    simp only [List.mem_cons, List.mem_singleton, List.not_mem_nil, or_false] at hb
    rcases hb with hb | hb | hb
    · exact Or.inr hb
    · exact Or.inl (hb ▸ hexDigit_unreserved _ hhi)
    · exact Or.inl (hb ▸ hexDigit_unreserved _ hlo)

theorem url_encode_alphabet (value : List Byte) (b : Byte) (hb : b ∈ url_encode value) :
    isUnreserved b ∨ b = 37 := by
  rw [url_encode_eq_flatMap, List.mem_flatMap] at hb
  obtain ⟨c, _, hc⟩ := hb
  exact encodedPiece_alphabet c b hc

/-- In the output of `url_encode`, a `%` at position `i` has hexadecimal digits
at the positions `i + 1` and `i + 2`. -/
theorem url_encode_percent_followed (value : List Byte) (i : Nat)
    (hi : (url_encode value)[i]? = some 37) :
    ∃ h l : Byte, (url_encode value)[i + 1]? = some h ∧ (url_encode value)[i + 2]? = some l ∧
      isHexDigit h = true ∧ isHexDigit l = true := by
  induction value generalizing i with
  | nil => simp [url_encode_nil] at hi
  | cons c rest ih =>
    rw [url_encode_cons] at hi ⊢
    unfold encodedPiece at hi ⊢
    by_cases h : isUnreserved c
    · rw [if_pos h] at hi ⊢
      cases i with
      | zero =>
        simp at hi
        exact absurd hi (unreserved_ne_percent c h)
      | succ j =>
        simp only [List.singleton_append, List.getElem?_cons_succ] at hi ⊢
        exact ih j hi
    · rw [if_neg h] at hi ⊢
      have hhi : c % 256 / 16 < 16 := by unfold Byte at *; omega
      have hlo : c % 256 % 16 < 16 := Nat.mod_lt _ (by decide)
      match i, hi with
      | 0, _ =>
        exact ⟨_, _, by simp, by simp, hexDigit_isHexDigit _ hhi, hexDigit_isHexDigit _ hlo⟩
      | 1, hi =>
        simp at hi
        exact absurd hi (hexDigit_ne_percent _)
      | 2, hi =>
        simp at hi
        exact absurd hi (hexDigit_ne_percent _)
      | j + 3, hi =>
        simp only [List.cons_append, List.nil_append, List.getElem?_cons_succ] at hi ⊢
        exact ih j hi

/-- C11: for every input, every byte of the output of `url_encode` is an ASCII
letter, an ASCII digit, `-`, `_`, `.`, `~` or `%`; every `%` of the output is
immediately followed by two hexadecimal digits; so the output holds no `[`,
`]`, `"`, blank, `/` or byte above 127; and the encoded display name of the
poke handler is such an output. -/
theorem url_encode_well_formed (value : List Byte) :
    (∀ b ∈ url_encode value, isUnreserved b ∨ b = 37) ∧
    (∀ i : Nat, (url_encode value)[i]? = some 37 →
      ∃ h l : Byte, (url_encode value)[i + 1]? = some h ∧ (url_encode value)[i + 2]? = some l ∧
        isHexDigit h = true ∧ isHexDigit l = true) ∧
    (∀ b ∈ url_encode value, b ≠ 91 ∧ b ≠ 93 ∧ b ≠ 34 ∧ b ≠ 32 ∧ b ≠ 47 ∧ b < 128) ∧
    (∀ (host : Host) (frame : PokeFrame) (ev : PokeEvent),
      (pokeLocals host frame ev).pokerNameEncoded = url_encode ev.pokerName) := by
  refine ⟨url_encode_alphabet value, url_encode_percent_followed value, ?_, fun _ _ _ => rfl⟩
  intro b hb
  have h := url_encode_alphabet value b hb
  unfold isUnreserved at h
  unfold Byte at *
  omega

/-- Witness of C11: the name `a[b]/ "` followed by the two bytes of a UTF-8
letter is encoded as `a%5bb%5d%2f%20%22%c3%a9`, which holds none of the
excluded bytes. -/
theorem url_encode_well_formed_witness :
    url_encode (lit "a[b]/ \"" ++ [195, 169]) = lit "a%5bb%5d%2f%20%22%c3%a9" ∧
      (∀ b ∈ url_encode (lit "a[b]/ \"" ++ [195, 169]),
        b ≠ 91 ∧ b ≠ 93 ∧ b ≠ 34 ∧ b ≠ 32 ∧ b ≠ 47 ∧ b < 128) :=
  ⟨by decide, (url_encode_well_formed (lit "a[b]/ \"" ++ [195, 169])).2.2.1⟩

end PokeBlocker
